import Mathlib

/-!
Verification of the alert-evaluation / cooldown pipeline and the WebSocket
subscription/replay session model of the Serverless IoT Event Processing
Platform.

The definitions below are a shallow embedding of the TypeScript sources:

* `backend/src/schemas/alert.ts` — `evaluateAlertConditions`,
  `createAlertInstance` and the alert data model;
* the alert-processor Lambda (`handler`, `getLastAlertForRule`,
  `storeAlertInstance`) — embedded as `ruleStep` / `processRules`;
* `backend/src/functions/websocket-handler.ts` — `handleUnsubscribe`,
  `handleUnsubscribeDevices`, `handleStopReplay`, `queryEventsFromDynamoDB`
  and the `startReplay` pacing loop.

JavaScript dynamic values are modelled by the `Value` type (string, number,
boolean, null); JS numbers are modelled as rationals, with `Option ℚ` for
the result of `Number(...)` where `none` stands for `NaN`.  Payload objects
(`Record<string, any>`) are association lists.  The model of the JS numeric
string grammar covers signed decimal literals with optional fraction and
exponent; hexadecimal and `Infinity` forms are omitted (no property below
depends on them).  The decimal rendering of a number in `Value.toJsString`
is likewise a simplified total rendering; no property below depends on the
exact digits produced for a non-integer number.
-/

namespace IoTPlatform

/-- A JS primitive value as it appears in event payloads and alert-condition
comparison values (`z.union([z.string(), z.number(), z.boolean()])`, plus
`null` which payload fields may carry). -/
inductive Value where
  | vStr (s : String)
  | vNum (q : ℚ)
  | vBool (b : Bool)
  | vNull
deriving DecidableEq, Repr

/-- JS whitespace stripped by `Number(string)` (common forms). -/
def isWs (c : Char) : Bool :=
  c = ' ' || c = '\t' || c = '\n' || c = '\r'

/-- Trim leading and trailing whitespace from a character list. -/
def jsTrimChars (cs : List Char) : List Char :=
  ((cs.dropWhile isWs).reverse.dropWhile isWs).reverse

/-- Numeric value of a digit list (most significant first). -/
def digitsVal (cs : List Char) : ℕ :=
  cs.foldl (fun n c => n * 10 + (c.toNat - 48)) 0

/-- All characters are decimal digits. -/
def allDigits (cs : List Char) : Bool :=
  cs.all (fun c => c.isDigit)

/-- Strip an optional leading sign, returning the sign as `1` or `-1`. -/
def parseSign : List Char → ℤ × List Char
  | '+' :: r => (1, r)
  | '-' :: r => (-1, r)
  | r => (1, r)

/-- Parse an unsigned decimal mantissa `digits`, `digits.digits`, `.digits`
or `digits.` (at least one digit in total); `none` is a failed parse. -/
def parseMantissa (cs : List Char) : Option ℚ :=
  let ip := cs.takeWhile (fun c => c ≠ '.')
  let rest := cs.dropWhile (fun c => c ≠ '.')
  match rest with
  | [] => if ip ≠ [] && allDigits ip then some ((digitsVal ip : ℤ) : ℚ) else none
  | _ :: fp =>
    if (ip ≠ [] || fp ≠ []) && allDigits ip && allDigits fp && fp.all (fun c => c ≠ '.') then
      some (((digitsVal ip : ℤ) : ℚ) + ((digitsVal fp : ℤ) : ℚ) / (10 : ℚ) ^ fp.length)
    else none

/-- The JS `Number(string)` coercion on the model's string grammar:
`some q` is a numeric result, `none` is `NaN`. -/
def jsStringToNumber (s : String) : Option ℚ :=
  let t := jsTrimChars s.toList
  if t = [] then some 0
  else
    let (sg, cs) := parseSign t
    let mant := cs.takeWhile (fun c => c ≠ 'e' && c ≠ 'E')
    let rest := cs.dropWhile (fun c => c ≠ 'e' && c ≠ 'E')
    match parseMantissa mant with
    | none => none
    | some m =>
      match rest with
      | [] => some ((sg : ℚ) * m)
      | _ :: ecs =>
        let (esg, eds) := parseSign ecs
        if eds ≠ [] && allDigits eds then
          some ((sg : ℚ) * m * (10 : ℚ) ^ (esg * (digitsVal eds : ℤ)))
        else none

/-- The JS `Number(x)` coercion: `none` stands for `NaN`. -/
def Value.toNumber : Value → Option ℚ
  | .vNum q => some q
  | .vBool b => some (if b then 1 else 0)
  | .vNull => some 0
  | .vStr s => jsStringToNumber s

/-- The JS `String(x)` coercion (decimal rendering of non-integer numbers is
simplified; no claim below depends on it). -/
def Value.toJsString : Value → String
  | .vStr s => s
  | .vBool b => if b then "true" else "false"
  | .vNull => "null"
  | .vNum q => if q.den = 1 then toString q.num else toString q.num ++ "/" ++ toString q.den

/-- Substring test on character lists (the JS `String.prototype.includes`). -/
def charsIncl (sub : List Char) : List Char → Bool
  | [] => sub.isEmpty
  | c :: t => sub.isPrefixOf (c :: t) || charsIncl sub t

/-- The JS `s.includes(sub)`. -/
def strIncludes (s sub : String) : Bool :=
  charsIncl sub.toList s.toList

/-- NaN-aware numeric `>` : any comparison involving `NaN` is false. -/
def jsGtNum : Option ℚ → Option ℚ → Bool
  | some x, some y => decide (y < x)
  | _, _ => false

/-- NaN-aware numeric `>=`. -/
def jsGteNum : Option ℚ → Option ℚ → Bool
  | some x, some y => decide (y ≤ x)
  | _, _ => false

/-- NaN-aware numeric `<`. -/
def jsLtNum : Option ℚ → Option ℚ → Bool
  | some x, some y => decide (x < y)
  | _, _ => false

/-- NaN-aware numeric `<=`. -/
def jsLteNum : Option ℚ → Option ℚ → Bool
  | some x, some y => decide (x ≤ y)
  | _, _ => false

/-- The condition operators of `AlertConditionSchema`. -/
inductive CondOp where
  | gt | gte | lt | lte | eq | neq | contains | not_contains
deriving DecidableEq, Repr

/-- An alert condition (`AlertConditionSchema`): a payload field name, an
operator, and a comparison value. -/
structure AlertCondition where
  field : String
  operator : CondOp
  value : Value
deriving DecidableEq, Repr

/-- A payload (`Record<string, any>`) as an association list; `data[f]` is
the first binding of `f`, `none` models `undefined`. -/
def lookupField (data : List (String × Value)) (f : String) : Option Value :=
  (data.find? (fun p => p.1 == f)).map (fun p => p.2)

/-- The per-operator numeric comparison used by the four numeric operators
(both sides coerced with `Number(...)` first); non-numeric operators give
false here (used only to state C3). -/
def numericEval : CondOp → Option ℚ → Option ℚ → Bool
  | .gt, a, b => jsGtNum a b
  | .gte, a, b => jsGteNum a b
  | .lt, a, b => jsLtNum a b
  | .lte, a, b => jsLteNum a b
  | _, _, _ => false

/-- Evaluation of a single condition against a payload: the body of the
`conditions.every(...)` callback of `evaluateAlertConditions` in
`schemas/alert.ts`.  A field that is `undefined` or `null` evaluates false;
otherwise the operator switch runs: numeric operators coerce both sides
with `Number`, `eq`/`neq` are strict (`===`/`!==`), `contains` and
`not_contains` compare string coercions with `includes`. -/
def evalCondition (data : List (String × Value)) (c : AlertCondition) : Bool :=
  match lookupField data c.field with
  | none => false
  | some fieldValue =>
    if fieldValue = .vNull then false
    else
      match c.operator with
      | .gt => jsGtNum fieldValue.toNumber c.value.toNumber
      | .gte => jsGteNum fieldValue.toNumber c.value.toNumber
      | .lt => jsLtNum fieldValue.toNumber c.value.toNumber
      | .lte => jsLteNum fieldValue.toNumber c.value.toNumber
      | .eq => decide (fieldValue = c.value)
      | .neq => decide (fieldValue ≠ c.value)
      | .contains => strIncludes fieldValue.toJsString c.value.toJsString
      | .not_contains => !(strIncludes fieldValue.toJsString c.value.toJsString)

/-- Embedding of `evaluateAlertConditions` from `schemas/alert.ts`: `conditions.every`
of the single-condition evaluation. -/
def evaluateAlertConditions (conditions : List AlertCondition)
    (data : List (String × Value)) : Bool :=
  conditions.all (fun c => evalCondition data c)

/-- Alert severity (`z.enum(['info', 'warning', 'critical'])`). -/
inductive Severity where
  | info | warning | critical
deriving DecidableEq, Repr

/-- Alert instance status (`z.enum(['active', 'acknowledged', 'resolved'])`). -/
inductive AlertStatus where
  | active | acknowledged | resolved
deriving DecidableEq, Repr

/-- An alert rule (`AlertRuleSchema`), restricted to the fields the
alert-processor handler reads.  `cooldownPeriod` is in seconds (a JS
number, hence `ℚ`); `deviceId` is the optional device scope. -/
structure AlertRule where
  alertId : String
  name : String
  deviceId : Option String
  conditions : List AlertCondition
  severity : Severity
  enabled : Bool
  cooldownPeriod : Option ℚ
deriving DecidableEq, Repr

/-- An alert instance (`AlertInstanceSchema`), restricted to the fields the
cooldown check and the claims read.  `triggeredAt` is a millisecond
timestamp.  The random `alertInstanceId` (uuid) and the `eventId`/`metadata`
fields are not modelled: no property below depends on them. -/
structure AlertInstance where
  alertId : String
  alertName : String
  deviceId : Option String
  severity : Severity
  message : String
  triggeredAt : ℤ
  status : AlertStatus
deriving DecidableEq, Repr

/-- Embedding of `createAlertInstance` from `schemas/alert.ts`: a fresh instance with
status `active`, fired at `now` (the source reads `Date.now()`; the model
takes it as a parameter). -/
def createAlertInstance (alertId alertName message : String) (severity : Severity)
    (deviceId : Option String) (now : ℤ) : AlertInstance :=
  { alertId := alertId, alertName := alertName, deviceId := deviceId,
    severity := severity, message := message, triggeredAt := now, status := .active }

/-- The alert message the handler builds:
`` `Alert triggered: ${rule.name} - Device: ${deviceId}` ``. -/
def alertMessageFor (rule : AlertRule) (deviceId : String) : String :=
  "Alert triggered: " ++ rule.name ++ " - Device: " ++ deviceId

/-- Embedding of `getLastAlertForRule` of the alert-processor Lambda.  `if (!deviceId)
return null` makes the lookup return nothing when the device id is absent
or empty (JS falsiness).  Otherwise it is a `DeviceIndex` query for the
device's instances, filtered to the given rule id, most recent first,
limit 1 — modelled as the matching instance with the greatest
`triggeredAt` in the store. -/
def getLastAlertForRule (db : List AlertInstance) (alertId : String)
    (deviceId : Option String) : Option AlertInstance :=
  match deviceId with
  | none => none
  | some d =>
    if d = "" then none
    else
      (db.filter (fun a => a.alertId == alertId && a.deviceId == some d)).foldl
        (fun acc a =>
          match acc with
          | none => some a
          | some b => if b.triggeredAt < a.triggeredAt then some a else some b) none

/-- Outcome of one iteration of the alert-processor's rule loop. -/
inductive RuleStepResult where
  | skippedDisabled
  | skippedDevice
  | noMatch
  | suppressed
  | fired (inst : AlertInstance)
deriving DecidableEq, Repr

/-- The device-scope guard of the rule loop:
`rule.deviceId && rule.deviceId !== deviceId` (an empty-string device id is
falsy in JS, so it does not scope the rule). -/
def deviceSkip (rule : AlertRule) (deviceId : String) : Bool :=
  match rule.deviceId with
  | some rd => rd ≠ "" && rd ≠ deviceId
  | none => false

/-- One iteration of the rule loop of the alert-processor `handler`:
skip disabled rules; skip rules scoped to a different device; evaluate the
conditions; on a match, suppress iff a last alert exists,
`rule.cooldownPeriod` is truthy (set and non-zero), and
`Date.now() - lastAlert.triggeredAt < rule.cooldownPeriod * 1000`;
otherwise create the new instance. -/
def ruleStep (db : List AlertInstance) (now : ℤ) (deviceId : String)
    (payload : List (String × Value)) (rule : AlertRule) : RuleStepResult :=
  if rule.enabled = false then .skippedDisabled
  else if deviceSkip rule deviceId = true then .skippedDevice
  else if evaluateAlertConditions rule.conditions payload = false then .noMatch
  else
    match getLastAlertForRule db rule.alertId (some deviceId), rule.cooldownPeriod with
    | some lastAlert, some cd =>
      if cd ≠ 0 ∧ ((now - lastAlert.triggeredAt : ℤ) : ℚ) < cd * 1000 then
        .suppressed
      else .fired (createAlertInstance rule.alertId rule.name
        (alertMessageFor rule deviceId) rule.severity (some deviceId) now)
    | _, _ => .fired (createAlertInstance rule.alertId rule.name
        (alertMessageFor rule deviceId) rule.severity (some deviceId) now)

/-- The alert-processor's loop over the candidate rules for one reading.
`storeFails` models whether `storeAlertInstance` (a DynamoDB put) rejects
for a given instance.  The source wraps the whole loop in one `try` whose
`catch` rethrows, so a failed store aborts the remaining rules: modelled by
`Except`, with `.error` carrying the instance whose store failed.  The
cooldown lookups read a snapshot `db` of the instance store; instances
stored during the pass are only visible to later rules through their own
(distinct) rule ids, which no property below depends on. -/
def processRules (storeFails : AlertInstance → Bool) (db : List AlertInstance)
    (now : ℤ) (deviceId : String) (payload : List (String × Value)) :
    List AlertRule → Except AlertInstance (List AlertInstance)
  | [] => .ok []
  | rule :: rest =>
    match ruleStep db now deviceId payload rule with
    | .fired inst =>
      if storeFails inst then .error inst
      else
        match processRules storeFails db now deviceId payload rest with
        | .ok l => .ok (inst :: l)
        | .error e => .error e
    | _ => processRules storeFails db now deviceId payload rest

/-- The optional `filters` object of a `ReplayConfig`
(`{sources?, types?, tags?}`). -/
structure ReplayFilters where
  sources : Option (List String)
  types : Option (List String)
  tags : Option (List String)
deriving DecidableEq, Repr

/-- Embedding of `ReplayConfig` from `schemas/event.ts`: window bounds (ms timestamps),
speed multiplier, optional filter. -/
structure ReplayConfig where
  startTime : ℤ
  endTime : ℤ
  speed : ℚ
  filters : Option ReplayFilters
deriving DecidableEq, Repr

/-- Embedding of `EventFilters` from `schemas/event.ts`, restricted to the fields
`queryEventsFromDynamoDB` reads (`tags`/`offset` are never read there; the
`limit` page size is an external storage concern, see
`queryEventsFromDynamoDB`). -/
structure EventFilters where
  sources : Option (List String)
  types : Option (List String)
  startTime : Option ℤ
  endTime : Option ℤ
deriving DecidableEq, Repr

/-- A stored event, restricted to the identifying fields the websocket
handler's query and replay logic read (`typ` is the source's `type` field,
renamed because `type` is reserved in Lean).  The `data`/`metadata`
payload is carried along unchanged by replay and is not modelled. -/
structure Event where
  id : String
  timestamp : ℤ
  source : String
  typ : String
deriving DecidableEq, Repr

/-- JS truthiness of an optional number: `undefined`, and `0`, are falsy. -/
def jsTruthyNum : Option ℤ → Bool
  | some v => v ≠ 0
  | none => false

/-- Embedding of `queryEventsFromDynamoDB` of `websocket-handler.ts`, as a predicate on
an arbitrarily ordered store `store` (the claims quantify over the
storage's retrieval order; DynamoDB page limits and the handler's
`userId = TEST_USER_ID` scoping are external storage concerns and `store`
stands for the retrievable events).  Faithful to the source's dispatch:
a non-empty `sources` list queries per source with the `BETWEEN` window
added only when `startTime && endTime` are both truthy; otherwise a
non-empty `types` list does the same per type; otherwise a scan applies
`>= startTime` and `<= endTime` individually, each only when truthy. -/
def queryEventsFromDynamoDB (store : List Event) (f : EventFilters) : List Event :=
  let bothWindow : Event → Bool := fun e =>
    if jsTruthyNum f.startTime && jsTruthyNum f.endTime then
      decide (f.startTime.getD 0 ≤ e.timestamp) && decide (e.timestamp ≤ f.endTime.getD 0)
    else true
  match f.sources with
  | some (s :: ss) => store.filter (fun e => (s :: ss).contains e.source && bothWindow e)
  | _ =>
    match f.types with
    | some (t :: ts) => store.filter (fun e => (t :: ts).contains e.typ && bothWindow e)
    | _ =>
      store.filter (fun e =>
        (!jsTruthyNum f.startTime || decide (f.startTime.getD 0 ≤ e.timestamp)) &&
        (!jsTruthyNum f.endTime || decide (e.timestamp ≤ f.endTime.getD 0)))

/-- The `EventFilters` value `startReplay` passes to the query:
`{...config.filters, startTime, endTime, limit: 1000}`. -/
def replayQueryFilters (config : ReplayConfig) : EventFilters :=
  { sources := match config.filters with | some fs => fs.sources | none => none
    types := match config.filters with | some fs => fs.types | none => none
    startTime := some config.startTime
    endTime := some config.endTime }

/-- Timestamp order on events (the `(a, b) => a.timestamp - b.timestamp`
comparator of `events.sort`). -/
def tsLe (a b : Event) : Prop :=
  a.timestamp ≤ b.timestamp

instance : DecidableRel tsLe := fun a b => inferInstanceAs (Decidable (a.timestamp ≤ b.timestamp))

instance : IsTotal Event tsLe := ⟨fun a b => le_total a.timestamp b.timestamp⟩

instance : IsTrans Event tsLe := ⟨fun _ _ _ h h' => le_trans h h'⟩

/-- The event list `startReplay` builds before the pacing loop: the query
result sorted ascending by timestamp (JS `Array.prototype.sort` is stable;
modelled by a stable sort). -/
def replayEventList (store : List Event) (config : ReplayConfig) : List Event :=
  List.insertionSort tsLe (queryEventsFromDynamoDB store (replayQueryFilters config))

/-- The source/type part of the replay query's selection (the window test
aside), from the query's dispatch on the filter lists. -/
def replaySourceTypeMatch (config : ReplayConfig) (e : Event) : Bool :=
  match (replayQueryFilters config).sources with
  | some (s :: ss) => (s :: ss).contains e.source
  | _ =>
    match (replayQueryFilters config).types with
    | some (t :: ts) => (t :: ts).contains e.typ
    | _ => true

/-- A websocket session (`ConnectionInfo` of `websocket-handler.ts`),
restricted to the subscription and replay state (`connectionId`, `userId`
and `lastActivity` are not read by any property below). -/
structure ConnectionInfo where
  subscriptions : List String
  deviceSubscriptions : List String
  alertSubscriptions : Bool
  replayConfig : Option ReplayConfig
deriving DecidableEq, Repr

/-- The check `startReplay` performs before each delivery:
`connections.get(connectionId)` must yield a session and
`connection.replayConfig` must be set. -/
def replayCheck : Option ConnectionInfo → Bool
  | none => false
  | some c => c.replayConfig.isSome

/-- The pacing loop of `startReplay`.  The session entry for this
connection is shared mutable state: before each delivery the loop re-reads
it (`replayCheck`) and breaks when the session is gone or its
`replayConfig` cleared; `sendOk i` tells whether the i-th
`PostToConnection` succeeds (`sendToConnection` deletes the session from
the registry on failure); `ext i` is the effect of handlers that run
concurrently during the i-th pacing sleep (e.g. `handleStopReplay`,
`$disconnect`, or nothing).  Returns the delivered events and the final
session entry.  The loop body performs no other mutation — in particular
it never writes `replayConfig`. -/
def replayLoop (sendOk : ℕ → Bool)
    (ext : ℕ → Option ConnectionInfo → Option ConnectionInfo) :
    List Event → ℕ → Option ConnectionInfo → List Event × Option ConnectionInfo
  | [], _, st => ([], st)
  | e :: rest, i, st =>
    if replayCheck st then
      let st1 := if sendOk i then st else none
      let out := replayLoop sendOk ext rest (i + 1) (ext i st1)
      (if sendOk i then e :: out.1 else out.1, out.2)
    else ([], st)

/-- Embedding of `startReplay` of `websocket-handler.ts`: fetch the window, sort by
timestamp, then run the pacing loop. -/
def startReplay (sendOk : ℕ → Bool)
    (ext : ℕ → Option ConnectionInfo → Option ConnectionInfo)
    (store : List Event) (config : ReplayConfig)
    (st : Option ConnectionInfo) : List Event × Option ConnectionInfo :=
  replayLoop sendOk ext (replayEventList store config) 0 st

/-- The session-state effect of `handleStartReplay`: overwrite the
session's `replayConfig` (missing session: error response, no mutation). -/
def handleStartReplay (config : ReplayConfig) :
    Option ConnectionInfo → Option ConnectionInfo
  | none => none
  | some c => some { c with replayConfig := some config }

/-- The session-state effect of `handleStopReplay`: clear the session's
`replayConfig` (missing session: error response, no mutation). -/
def handleStopReplay : Option ConnectionInfo → Option ConnectionInfo
  | none => none
  | some c => some { c with replayConfig := none }

/-- The `data` of a `subscribe`/`unsubscribe` message
(`{sources?: string[], types?: string[]}`). -/
structure TopicFilter where
  sources : Option (List String)
  types : Option (List String)
deriving DecidableEq, Repr

/-- Embedding of `handleUnsubscribe` of `websocket-handler.ts` (session-state part):
`const {sources, types} = data || {}` then remove
`[...(sources || []), ...(types || [])]` from the topic subscriptions. -/
def handleUnsubscribe (conn : ConnectionInfo) (data : Option TopicFilter) :
    ConnectionInfo :=
  let d := data.getD { sources := none, types := none }
  let toUnsubscribe := d.sources.getD [] ++ d.types.getD []
  { conn with subscriptions :=
      conn.subscriptions.filter (fun s => !(toUnsubscribe.contains s)) }

/-- Embedding of `handleUnsubscribeDevices` of `websocket-handler.ts` (session-state
part): with a `deviceIds` array remove those ids; with `deviceIds` omitted
clear all device subscriptions. -/
def handleUnsubscribeDevices (conn : ConnectionInfo)
    (deviceIds : Option (List String)) : ConnectionInfo :=
  match deviceIds with
  | some ids =>
    { conn with deviceSubscriptions :=
        conn.deviceSubscriptions.filter (fun i => !(ids.contains i)) }
  | none => { conn with deviceSubscriptions := [] }

/-- Helper: a NaN operand makes every numeric comparison false. -/
theorem numericEval_nan (op : CondOp) (a b : Option ℚ)
    (h : a = none ∨ b = none) : numericEval op a b = false := by
  rcases h with rfl | rfl
  · cases op <;> cases b <;> rfl
  · cases op <;> cases a <;> rfl

/-- C1: `evaluateAlertConditions` is the logical AND of the per-condition
evaluations — it returns true iff every condition in the list evaluates
true against the payload under the per-operator semantics of
`evalCondition` — and an empty condition list yields true vacuously. -/
theorem c1_matches_iff_all_conditions (conditions : List AlertCondition)
    (data : List (String × Value)) :
    (evaluateAlertConditions conditions data = true ↔
      ∀ c ∈ conditions, evalCondition data c = true) ∧
    evaluateAlertConditions [] data = true := by
  refine ⟨?_, rfl⟩
  simp [evaluateAlertConditions, List.all_eq_true]

/-- C2: a condition whose referenced field is absent (`undefined`) or
`null` in the payload evaluates false regardless of operator, and any
condition list containing such a condition does not match.  The evaluator
is a total function, so this missing-data case is a non-match, not an
error. -/
theorem c2_missing_field_fails_closed (c : AlertCondition)
    (data : List (String × Value)) (conditions : List AlertCondition)
    (habs : lookupField data c.field = none ∨ lookupField data c.field = some .vNull)
    (hmem : c ∈ conditions) :
    evalCondition data c = false ∧ evaluateAlertConditions conditions data = false := by
  have h1 : evalCondition data c = false := by
    rcases habs with h | h <;> simp [evalCondition, h]
  refine ⟨h1, ?_⟩
  rcases hb : evaluateAlertConditions conditions data with _ | _
  · rfl
  · have := (List.all_eq_true.mp hb) c hmem
    rw [h1] at this
    exact absurd this (by simp)

/-- Witness for C2 at a concrete input: a payload without the
`temperature` field fails a `gt` condition on it, and the rule containing
that condition does not match. -/
theorem c2_missing_field_fails_closed_witness :
    evalCondition [] ⟨"temperature", .gt, .vNum 40⟩ = false ∧
    evaluateAlertConditions [⟨"temperature", .gt, .vNum 40⟩] [] = false :=
  c2_missing_field_fails_closed ⟨"temperature", .gt, .vNum 40⟩ [] [⟨"temperature", .gt, .vNum 40⟩]
    (Or.inl rfl) (List.mem_cons_self _ _)

/-- C3: for the numeric operators (`gt`/`gte`/`lt`/`lte`) the evaluation
of a present, non-null field is exactly the NaN-aware comparison of the
`Number(...)` coercions of the field value and the condition value, and
when either side fails to parse as a number the condition evaluates false.
The evaluator is a total function, so it never throws in this case. -/
theorem c3_numeric_operators_nan_false (c : AlertCondition)
    (data : List (String × Value)) (v : Value)
    (hop : c.operator = .gt ∨ c.operator = .gte ∨ c.operator = .lt ∨ c.operator = .lte)
    (hlook : lookupField data c.field = some v) (hnn : v ≠ .vNull) :
    evalCondition data c = numericEval c.operator v.toNumber c.value.toNumber ∧
    ((v.toNumber = none ∨ c.value.toNumber = none) → evalCondition data c = false) := by
  have h1 : evalCondition data c = numericEval c.operator v.toNumber c.value.toNumber := by
    rcases hop with h | h | h | h <;> simp [evalCondition, hlook, hnn, h, numericEval]
  exact ⟨h1, fun hnan => h1.trans (numericEval_nan _ _ _ hnan)⟩

/-- Witness for C3 at a concrete input: the field value `"abc"` fails
numeric parsing, so a `gt` comparison against it evaluates false. -/
theorem c3_numeric_operators_nan_false_witness :
    (evalCondition [("x", .vStr "abc")] ⟨"x", .gt, .vNum 5⟩ =
      numericEval .gt (Value.vStr "abc").toNumber (Value.vNum 5).toNumber ∧
    (((Value.vStr "abc").toNumber = none ∨ (Value.vNum 5).toNumber = none) →
      evalCondition [("x", .vStr "abc")] ⟨"x", .gt, .vNum 5⟩ = false)) ∧
    (Value.vStr "abc").toNumber = none ∧
    evalCondition [("x", .vStr "abc")] ⟨"x", .gt, .vNum 5⟩ = false := by
  have h := c3_numeric_operators_nan_false ⟨"x", .gt, .vNum 5⟩ [("x", .vStr "abc")]
    (.vStr "abc") (Or.inl rfl) rfl (by decide)
  have hn : (Value.vStr "abc").toNumber = none := by decide
  exact ⟨h, hn, h.2 (Or.inl hn)⟩

/-- Helper: one rule-loop iteration for an enabled, not device-skipped,
condition-matching rule reduces to the cooldown match on the last-alert
lookup and the cooldown period. -/
theorem ruleStep_eval (db : List AlertInstance) (now : ℤ) (d : String)
    (payload : List (String × Value)) (rule : AlertRule)
    (hen : rule.enabled = true) (hdev : deviceSkip rule d = false)
    (hmatch : evaluateAlertConditions rule.conditions payload = true) :
    ruleStep db now d payload rule =
      (match getLastAlertForRule db rule.alertId (some d), rule.cooldownPeriod with
      | some lastAlert, some cd =>
        if cd ≠ 0 ∧ ((now - lastAlert.triggeredAt : ℤ) : ℚ) < cd * 1000 then
          RuleStepResult.suppressed
        else .fired (createAlertInstance rule.alertId rule.name
          (alertMessageFor rule d) rule.severity (some d) now)
      | _, _ => .fired (createAlertInstance rule.alertId rule.name
          (alertMessageFor rule d) rule.severity (some d) now)) := by
  rw [ruleStep, hen, hdev, hmatch]
  rw [if_neg (by simp : ¬(true = false))]
  rw [if_neg (by simp : ¬(false = true))]
  rw [if_neg (by simp : ¬(true = false))]

/-- Helper: full cooldown case analysis of one rule-loop iteration, for a
rule that is enabled, not skipped by the device-scope guard, and whose
conditions match: suppression happens iff a most recent prior instance for
(rule id, reading device) exists and the cooldown is set, non-zero and not
yet elapsed; in every other case the step fires the new instance. -/
theorem ruleStep_cooldown_cases (db : List AlertInstance) (now : ℤ) (d : String)
    (payload : List (String × Value)) (rule : AlertRule)
    (hen : rule.enabled = true)
    (hdev : deviceSkip rule d = false)
    (hmatch : evaluateAlertConditions rule.conditions payload = true) :
    (ruleStep db now d payload rule = .suppressed ↔
      ∃ la cd, getLastAlertForRule db rule.alertId (some d) = some la ∧
        rule.cooldownPeriod = some cd ∧ cd ≠ 0 ∧
        ((now - la.triggeredAt : ℤ) : ℚ) < cd * 1000) ∧
    ((rule.cooldownPeriod = none ∨ rule.cooldownPeriod = some 0) →
      ruleStep db now d payload rule = .fired (createAlertInstance rule.alertId rule.name
        (alertMessageFor rule d) rule.severity (some d) now)) ∧
    (ruleStep db now d payload rule ≠ .suppressed →
      ruleStep db now d payload rule = .fired (createAlertInstance rule.alertId rule.name
        (alertMessageFor rule d) rule.severity (some d) now)) := by
  have he := ruleStep_eval db now d payload rule hen hdev hmatch
  rcases hla : getLastAlertForRule db rule.alertId (some d) with _ | la <;>
    rcases hcd : rule.cooldownPeriod with _ | cd <;>
    rw [hla, hcd] at he
  · have hf : ruleStep db now d payload rule = .fired (createAlertInstance rule.alertId
        rule.name (alertMessageFor rule d) rule.severity (some d) now) := he
    refine ⟨?_, fun _ => hf, fun _ => hf⟩
    rw [hf]
    constructor
    · intro h; exact absurd h (by simp)
    · rintro ⟨la', cd', hla', hcd', hcz, hlt⟩
      exact absurd hla' (by simp)
  · have hf : ruleStep db now d payload rule = .fired (createAlertInstance rule.alertId
        rule.name (alertMessageFor rule d) rule.severity (some d) now) := he
    refine ⟨?_, fun _ => hf, fun _ => hf⟩
    rw [hf]
    constructor
    · intro h; exact absurd h (by simp)
    · rintro ⟨la', cd', hla', hcd', hcz, hlt⟩
      exact absurd hla' (by simp)
  · have hf : ruleStep db now d payload rule = .fired (createAlertInstance rule.alertId
        rule.name (alertMessageFor rule d) rule.severity (some d) now) := he
    refine ⟨?_, fun _ => hf, fun _ => hf⟩
    rw [hf]
    constructor
    · intro h; exact absurd h (by simp)
    · rintro ⟨la', cd', hla', hcd', hcz, hlt⟩
      exact absurd hcd' (by simp)
  · have he2 : ruleStep db now d payload rule =
        (if cd ≠ 0 ∧ ((now - la.triggeredAt : ℤ) : ℚ) < cd * 1000 then
          RuleStepResult.suppressed
        else .fired (createAlertInstance rule.alertId rule.name
          (alertMessageFor rule d) rule.severity (some d) now)) := he
    by_cases hc : cd ≠ 0 ∧ ((now - la.triggeredAt : ℤ) : ℚ) < cd * 1000
    · have hs : ruleStep db now d payload rule = .suppressed := by
        rw [he2]; exact if_pos hc
      refine ⟨?_, ?_, fun hne => absurd hs hne⟩
      · rw [hs]
        exact ⟨fun _ => ⟨la, cd, rfl, rfl, hc.1, hc.2⟩, fun _ => rfl⟩
      · rintro (h | h)
        · exact absurd h (by simp)
        · exact absurd (Option.some_inj.mp h) hc.1
    · have hf : ruleStep db now d payload rule = .fired (createAlertInstance rule.alertId
          rule.name (alertMessageFor rule d) rule.severity (some d) now) := by
        rw [he2]; exact if_neg hc
      refine ⟨?_, fun _ => hf, fun _ => hf⟩
      rw [hf]
      constructor
      · intro h; exact absurd h (by simp)
      · rintro ⟨la', cd', hla', hcd', hcz, hlt⟩
        cases Option.some_inj.mp hla'
        cases Option.some_inj.mp hcd'
        exact absurd ⟨hcz, hlt⟩ hc

/-- C4: for an enabled rule scoped to the reading's device whose
conditions match the payload, the step is suppressed iff the rule's
cooldown is set and non-zero, a prior AlertInstance for the (rule, device)
pair exists, and `now - triggeredAt < cooldownPeriod * 1000` for the most
recent such instance; with the cooldown unset or zero it always fires, and
in every non-suppressed case a new AlertInstance is produced. -/
theorem c4_cooldown_device_scoped (db : List AlertInstance) (now : ℤ) (d : String)
    (payload : List (String × Value)) (rule : AlertRule)
    (hen : rule.enabled = true) (hdev : rule.deviceId = some d)
    (hmatch : evaluateAlertConditions rule.conditions payload = true) :
    (ruleStep db now d payload rule = .suppressed ↔
      ∃ la cd, getLastAlertForRule db rule.alertId (some d) = some la ∧
        rule.cooldownPeriod = some cd ∧ cd ≠ 0 ∧
        ((now - la.triggeredAt : ℤ) : ℚ) < cd * 1000) ∧
    ((rule.cooldownPeriod = none ∨ rule.cooldownPeriod = some 0) →
      ruleStep db now d payload rule = .fired (createAlertInstance rule.alertId rule.name
        (alertMessageFor rule d) rule.severity (some d) now)) ∧
    (ruleStep db now d payload rule ≠ .suppressed →
      ruleStep db now d payload rule = .fired (createAlertInstance rule.alertId rule.name
        (alertMessageFor rule d) rule.severity (some d) now)) :=
  ruleStep_cooldown_cases db now d payload rule hen (by simp [deviceSkip, hdev]) hmatch

/-- Witness for C4 at a concrete input: a device-scoped rule with a 60 s
cooldown is suppressed 30 s after a prior firing and fires again 60 s
after it. -/
theorem c4_cooldown_device_scoped_witness :
    ruleStep [⟨"rule_1", "High Temp", some "d1", .critical, "m", 1000, .active⟩]
      31000 "d1" [("value", .vNum 45)]
      ⟨"rule_1", "High Temp", some "d1", [⟨"value", .gt, .vNum 40⟩], .critical, true, some 60⟩ =
      .suppressed ∧
    ruleStep [⟨"rule_1", "High Temp", some "d1", .critical, "m", 1000, .active⟩]
      61000 "d1" [("value", .vNum 45)]
      ⟨"rule_1", "High Temp", some "d1", [⟨"value", .gt, .vNum 40⟩], .critical, true, some 60⟩ =
      .fired (createAlertInstance "rule_1" "High Temp"
        "Alert triggered: High Temp - Device: d1" .critical (some "d1") 61000) := by
  constructor
  · exact (c4_cooldown_device_scoped
        [⟨"rule_1", "High Temp", some "d1", .critical, "m", 1000, .active⟩] 31000 "d1"
        [("value", .vNum 45)]
        ⟨"rule_1", "High Temp", some "d1", [⟨"value", .gt, .vNum 40⟩], .critical, true, some 60⟩
        rfl rfl (by decide)).1.mpr
      ⟨⟨"rule_1", "High Temp", some "d1", .critical, "m", 1000, .active⟩, 60,
        by decide, rfl, by norm_num, by norm_num⟩
  · norm_num +decide [ruleStep, deviceSkip, getLastAlertForRule, evaluateAlertConditions,
      evalCondition, lookupField, Value.toNumber, jsGtNum, createAlertInstance,
      alertMessageFor, List.filter, List.foldl]

/-- C5 counterexample: for a device-unscoped (global) rule with a
cooldown, the lookup keyed by the reading's device id does find the prior
instance, and the matching reading is suppressed — so it is false that the
cooldown lookup returns nothing and that every matching reading produces a
new AlertInstance regardless of prior firings. -/
theorem c5_global_rule_cooldown_counterexample :
    getLastAlertForRule [⟨"rule_2", "Global", some "d1", .info, "m", 1000, .active⟩]
      "rule_2" (some "d1") =
      some ⟨"rule_2", "Global", some "d1", .info, "m", 1000, .active⟩ ∧
    ruleStep [⟨"rule_2", "Global", some "d1", .info, "m", 1000, .active⟩] 2000 "d1"
      [("value", .vNum 45)]
      ⟨"rule_2", "Global", none, [⟨"value", .gt, .vNum 40⟩], .info, true, some 60⟩ =
      .suppressed := by
  constructor
  · decide
  · norm_num +decide [ruleStep, deviceSkip, getLastAlertForRule, evaluateAlertConditions,
      evalCondition, lookupField, Value.toNumber, jsGtNum, createAlertInstance,
      alertMessageFor, List.filter, List.foldl]

/-- C5 amended: for an enabled global (device-unscoped) rule whose
conditions match, the cooldown lookup is keyed by the incoming reading's
device id (always present on sensor readings), so the rule IS cooled down
per device: it is suppressed iff its cooldown is set and non-zero and a
recent-enough prior instance for (rule id, reading device) exists; prior
firings recorded for other devices do not suppress, and in every
non-suppressed case a new AlertInstance is produced. -/
theorem c5_amended_global_rule_cooldown (db : List AlertInstance) (now : ℤ) (d : String)
    (payload : List (String × Value)) (rule : AlertRule)
    (hen : rule.enabled = true) (hdev : rule.deviceId = none)
    (hmatch : evaluateAlertConditions rule.conditions payload = true) :
    (ruleStep db now d payload rule = .suppressed ↔
      ∃ la cd, getLastAlertForRule db rule.alertId (some d) = some la ∧
        rule.cooldownPeriod = some cd ∧ cd ≠ 0 ∧
        ((now - la.triggeredAt : ℤ) : ℚ) < cd * 1000) ∧
    ((rule.cooldownPeriod = none ∨ rule.cooldownPeriod = some 0) →
      ruleStep db now d payload rule = .fired (createAlertInstance rule.alertId rule.name
        (alertMessageFor rule d) rule.severity (some d) now)) ∧
    (ruleStep db now d payload rule ≠ .suppressed →
      ruleStep db now d payload rule = .fired (createAlertInstance rule.alertId rule.name
        (alertMessageFor rule d) rule.severity (some d) now)) :=
  ruleStep_cooldown_cases db now d payload rule hen (by simp [deviceSkip, hdev]) hmatch

/-- Witness for the amended C5 at a concrete input: the global rule is
suppressed for the device with a 1 s old prior instance, and fires for a
device with no prior instance. -/
theorem c5_amended_global_rule_cooldown_witness :
    ruleStep [⟨"rule_2", "Global", some "d1", .info, "m", 1000, .active⟩] 2000 "d1"
      [("value", .vNum 45)]
      ⟨"rule_2", "Global", none, [⟨"value", .gt, .vNum 40⟩], .info, true, some 60⟩ =
      .suppressed ∧
    ruleStep [⟨"rule_2", "Global", some "d1", .info, "m", 1000, .active⟩] 2000 "d2"
      [("value", .vNum 45)]
      ⟨"rule_2", "Global", none, [⟨"value", .gt, .vNum 40⟩], .info, true, some 60⟩ =
      .fired (createAlertInstance "rule_2" "Global"
        "Alert triggered: Global - Device: d2" .info (some "d2") 2000) := by
  constructor
  · exact (c5_amended_global_rule_cooldown
        [⟨"rule_2", "Global", some "d1", .info, "m", 1000, .active⟩] 2000 "d1"
        [("value", .vNum 45)]
        ⟨"rule_2", "Global", none, [⟨"value", .gt, .vNum 40⟩], .info, true, some 60⟩
        rfl rfl (by decide)).1.mpr
      ⟨⟨"rule_2", "Global", some "d1", .info, "m", 1000, .active⟩, 60,
        by decide, rfl, by norm_num, by norm_num⟩
  · norm_num +decide [ruleStep, deviceSkip, getLastAlertForRule, evaluateAlertConditions,
      evalCondition, lookupField, Value.toNumber, jsGtNum, createAlertInstance,
      alertMessageFor, List.filter, List.foldl]

/-- C6 counterexample: with two global matching rules and a store that
rejects the first rule's instance, the pass aborts with that error and the
second rule — which would have fired — contributes no AlertInstance. -/
theorem c6_store_failure_counterexample :
    processRules (fun a => a.alertId == "rule_1") [] 1000 "d1" [("value", .vNum 45)]
      [⟨"rule_1", "R1", none, [⟨"value", .gt, .vNum 40⟩], .info, true, none⟩,
       ⟨"rule_2", "R2", none, [⟨"value", .gt, .vNum 40⟩], .info, true, none⟩] =
      .error ⟨"rule_1", "R1", some "d1", .info,
        "Alert triggered: R1 - Device: d1", 1000, .active⟩ ∧
    ruleStep [] 1000 "d1" [("value", .vNum 45)]
      ⟨"rule_2", "R2", none, [⟨"value", .gt, .vNum 40⟩], .info, true, none⟩ =
      .fired ⟨"rule_2", "R2", some "d1", .info,
        "Alert triggered: R2 - Device: d1", 1000, .active⟩ := by
  exact ⟨rfl, by decide⟩

/-- C6 amended: a persistence failure while storing one rule's
AlertInstance aborts the pass for that reading — the error propagates out
of the rule loop (the handler's catch rethrows), so the remaining rules
are not evaluated and create no AlertInstance. -/
theorem c6_amended_store_failure_aborts (storeFails : AlertInstance → Bool)
    (db : List AlertInstance) (now : ℤ) (d : String)
    (payload : List (String × Value)) (rule : AlertRule) (rest : List AlertRule)
    (inst : AlertInstance)
    (hfired : ruleStep db now d payload rule = .fired inst)
    (hfail : storeFails inst = true) :
    processRules storeFails db now d payload (rule :: rest) = .error inst := by
  simp [processRules, hfired, hfail]

/-- Witness for the amended C6 at a concrete input: the failing store of
the first rule's instance makes the whole pass error out. -/
theorem c6_amended_store_failure_aborts_witness :
    processRules (fun a => a.alertId == "rule_1") [] 1000 "d1" [("value", .vNum 45)]
      [⟨"rule_1", "R1", none, [⟨"value", .gt, .vNum 40⟩], .info, true, none⟩,
       ⟨"rule_3", "R3", none, [⟨"value", .gt, .vNum 40⟩], .info, true, none⟩] =
      .error ⟨"rule_1", "R1", some "d1", .info,
        "Alert triggered: R1 - Device: d1", 1000, .active⟩ :=
  c6_amended_store_failure_aborts (fun a => a.alertId == "rule_1") [] 1000 "d1"
    [("value", .vNum 45)]
    ⟨"rule_1", "R1", none, [⟨"value", .gt, .vNum 40⟩], .info, true, none⟩
    [⟨"rule_3", "R3", none, [⟨"value", .gt, .vNum 40⟩], .info, true, none⟩]
    ⟨"rule_1", "R1", some "d1", .info, "Alert triggered: R1 - Device: d1", 1000, .active⟩
    (by decide) (by decide)

/-- Helper: with a live session, successful sends and no concurrent
mutation, the pacing loop delivers every event and leaves the session
untouched. -/
theorem replayLoop_live_delivers_all (evs : List Event) :
    ∀ (i : ℕ) (c : ConnectionInfo), c.replayConfig.isSome = true →
      replayLoop (fun _ => true) (fun _ s => s) evs i (some c) = (evs, some c) := by
  induction evs with
  | nil => intro i c _; rfl
  | cons e rest ih =>
    intro i c h
    simp [replayLoop, replayCheck, h, ih (i + 1) c h]

/-- Helper: the replay query with both window bounds non-zero selects
exactly the events in the window that pass the source/type filter
dispatch. -/
theorem replayQuery_eq_filter (store : List Event) (config : ReplayConfig)
    (hs : config.startTime ≠ 0) (he : config.endTime ≠ 0) :
    queryEventsFromDynamoDB store (replayQueryFilters config) =
      store.filter (fun e => replaySourceTypeMatch config e &&
        (decide (config.startTime ≤ e.timestamp) &&
         decide (e.timestamp ≤ config.endTime))) := by
  rcases config with ⟨st, et, sp, fl⟩
  simp only [ne_eq] at hs he
  rcases fl with _ | ⟨fsrc, ftyp, ftags⟩
  · apply List.filter_congr
    intro e _
    simp [queryEventsFromDynamoDB, replayQueryFilters, replaySourceTypeMatch, jsTruthyNum, hs, he]
  · rcases fsrc with _ | ⟨_ | ⟨s, ss⟩⟩
    · rcases ftyp with _ | ⟨_ | ⟨t, ts⟩⟩
      · apply List.filter_congr
        intro e _
        simp [queryEventsFromDynamoDB, replayQueryFilters, replaySourceTypeMatch,
          jsTruthyNum, hs, he]
      · apply List.filter_congr
        intro e _
        simp [queryEventsFromDynamoDB, replayQueryFilters, replaySourceTypeMatch,
          jsTruthyNum, hs, he]
      · apply List.filter_congr
        intro e _
        simp [queryEventsFromDynamoDB, replayQueryFilters, replaySourceTypeMatch,
          jsTruthyNum, hs, he, Bool.and_assoc]
    · rcases ftyp with _ | ⟨_ | ⟨t, ts⟩⟩
      · apply List.filter_congr
        intro e _
        simp [queryEventsFromDynamoDB, replayQueryFilters, replaySourceTypeMatch,
          jsTruthyNum, hs, he]
      · apply List.filter_congr
        intro e _
        simp [queryEventsFromDynamoDB, replayQueryFilters, replaySourceTypeMatch,
          jsTruthyNum, hs, he]
      · apply List.filter_congr
        intro e _
        simp [queryEventsFromDynamoDB, replayQueryFilters, replaySourceTypeMatch,
          jsTruthyNum, hs, he, Bool.and_assoc]
    · apply List.filter_congr
      intro e _
      simp [queryEventsFromDynamoDB, replayQueryFilters, replaySourceTypeMatch,
        jsTruthyNum, hs, he, Bool.and_assoc]

/-- Helper: a failing pre-delivery check stops the pacing loop at once,
without error and without mutating the session. -/
theorem replayLoop_check_false (sendOk : ℕ → Bool)
    (ext : ℕ → Option ConnectionInfo → Option ConnectionInfo)
    (evs : List Event) (i : ℕ) (st : Option ConnectionInfo)
    (h : replayCheck st = false) :
    replayLoop sendOk ext evs i st = ([], st) := by
  cases evs <;> simp [replayLoop, h]

/-- Helper: if the mutation after the k-th delivery always leaves the
check failing, at most k + 1 - i events are delivered from step i ≤ k
onward. -/
theorem replayLoop_length_le (sendOk : ℕ → Bool)
    (ext : ℕ → Option ConnectionInfo → Option ConnectionInfo) (k : ℕ)
    (hclear : ∀ s, replayCheck (ext k s) = false) :
    ∀ (evs : List Event) (i : ℕ) (st : Option ConnectionInfo), i ≤ k →
      (replayLoop sendOk ext evs i st).1.length ≤ k + 1 - i := by
  intro evs
  induction evs with
  | nil => intro i st _; simp [replayLoop]
  | cons e rest ih =>
    intro i st hik
    by_cases hchk : replayCheck st = true
    · rcases Nat.lt_or_ge i k with hlt | hge
      · have h2 := ih (i + 1) (ext i (if sendOk i then st else none)) hlt
        simp only [replayLoop, hchk, if_true]
        cases hso : sendOk i <;> simp [hso] at h2 ⊢ <;> omega
      · have hik' : i = k := le_antisymm hik hge
        subst hik'
        have h3 := replayLoop_check_false sendOk ext rest (i + 1)
          (ext i (if sendOk i then st else none)) (hclear _)
        simp only [replayLoop, hchk, if_true, h3]
        cases sendOk i <;> simp
    · rw [replayLoop_check_false sendOk ext (e :: rest) i st
        (Bool.not_eq_true _ ▸ hchk)]
      simp

/-- C7 counterexample: a replay request whose `startTime` is `0` is falsy
in JS, so the query's truthiness guard drops the time window entirely and
an event with timestamp `6000`, outside `[0, 5000]`, is delivered. -/
theorem c7_zero_window_counterexample :
    (startReplay (fun _ => true) (fun _ s => s)
        [⟨"e1", 6000, "iot_sensors", "sensor_reading"⟩]
        ⟨0, 5000, 1, some ⟨some ["iot_sensors"], none, none⟩⟩
        (some ⟨[], [], false, some ⟨0, 5000, 1, none⟩⟩)).1 =
      [⟨"e1", 6000, "iot_sensors", "sensor_reading"⟩] ∧
    ¬ ((⟨"e1", 6000, "iot_sensors", "sensor_reading"⟩ : Event).timestamp ≤ 5000) := by
  exact ⟨rfl, by decide⟩

/-- C7 amended: for a replay request whose `startTime` and `endTime` are
both non-zero (with a zero bound the JS truthiness guard drops the window
from the query), an uninterrupted replay with successful sends delivers
exactly the stored events that pass the source/type filter and whose
timestamps fall in `[startTime, endTime]`, in non-decreasing timestamp
order, regardless of the storage retrieval order (the delivered list is a
permutation of the matching events, for every ordering of `store`). -/
theorem c7_amended_replay_sorted_window (store : List Event) (config : ReplayConfig)
    (c : ConnectionInfo) (hlive : c.replayConfig.isSome = true)
    (hs : config.startTime ≠ 0) (he : config.endTime ≠ 0) :
    List.Perm (startReplay (fun _ => true) (fun _ s => s) store config (some c)).1
      (store.filter (fun e => replaySourceTypeMatch config e &&
        (decide (config.startTime ≤ e.timestamp) &&
         decide (e.timestamp ≤ config.endTime)))) ∧
    List.Sorted tsLe (startReplay (fun _ => true) (fun _ s => s) store config (some c)).1 := by
  have hdel : (startReplay (fun _ => true) (fun _ s => s) store config (some c)).1 =
      replayEventList store config := by
    rw [startReplay, replayLoop_live_delivers_all _ 0 c hlive]
  rw [hdel, replayEventList, replayQuery_eq_filter store config hs he]
  exact ⟨List.perm_insertionSort _ _, List.sorted_insertionSort _ _⟩

/-- Witness for the amended C7 at a concrete input: two events stored out
of order, a window `[1000, 5000]`, a live session. -/
theorem c7_amended_replay_sorted_window_witness :
    List.Perm (startReplay (fun _ => true) (fun _ s => s)
        [⟨"e2", 3400, "iot_sensors", "sensor_reading"⟩,
         ⟨"e1", 1200, "iot_sensors", "sensor_reading"⟩]
        ⟨1000, 5000, 1, none⟩
        (some ⟨[], [], false, some ⟨1000, 5000, 1, none⟩⟩)).1
      ([⟨"e2", 3400, "iot_sensors", "sensor_reading"⟩,
        ⟨"e1", 1200, "iot_sensors", "sensor_reading"⟩].filter
        (fun e => replaySourceTypeMatch ⟨1000, 5000, 1, none⟩ e &&
          (decide ((1000 : ℤ) ≤ e.timestamp) && decide (e.timestamp ≤ (5000 : ℤ))))) ∧
    List.Sorted tsLe (startReplay (fun _ => true) (fun _ s => s)
        [⟨"e2", 3400, "iot_sensors", "sensor_reading"⟩,
         ⟨"e1", 1200, "iot_sensors", "sensor_reading"⟩]
        ⟨1000, 5000, 1, none⟩
        (some ⟨[], [], false, some ⟨1000, 5000, 1, none⟩⟩)).1 :=
  c7_amended_replay_sorted_window
    [⟨"e2", 3400, "iot_sensors", "sensor_reading"⟩,
     ⟨"e1", 1200, "iot_sensors", "sensor_reading"⟩]
    ⟨1000, 5000, 1, none⟩ ⟨[], [], false, some ⟨1000, 5000, 1, none⟩⟩
    rfl (by decide) (by decide)

/-- C8: if the concurrent mutation during the pacing sleep after the k-th
delivery leaves the pre-delivery check failing — as clearing the replay
configuration with `handleStopReplay` or removing the session on
disconnect both do — then no event beyond the first k + 1 is ever
delivered; a failing check stops the loop immediately, without error, and
both cancellation mechanisms indeed make the check fail. -/
theorem c8_replay_cancellation (sendOk : ℕ → Bool)
    (ext : ℕ → Option ConnectionInfo → Option ConnectionInfo) (k : ℕ)
    (hclear : ∀ s, replayCheck (ext k s) = false) :
    (∀ (evs : List Event) (st : Option ConnectionInfo),
      (replayLoop sendOk ext evs 0 st).1.length ≤ k + 1) ∧
    (∀ (evs : List Event) (i : ℕ) (st : Option ConnectionInfo),
      replayCheck st = false → replayLoop sendOk ext evs i st = ([], st)) ∧
    (∀ s, replayCheck (handleStopReplay s) = false) ∧
    replayCheck none = false := by
  refine ⟨fun evs st => ?_,
    fun evs i st h => replayLoop_check_false _ _ _ _ _ h, fun s => ?_, rfl⟩
  · simpa using replayLoop_length_le sendOk ext k hclear evs 0 st (Nat.zero_le k)
  · cases s <;> rfl

/-- Witness for C8 at a concrete input: `stop_replay` runs during the
first pacing sleep, so of three events at most the first is delivered. -/
theorem c8_replay_cancellation_witness :
    (replayLoop (fun _ => true)
        (fun j s => if j = 0 then handleStopReplay s else s)
        [⟨"e1", 1200, "iot_sensors", "sensor_reading"⟩,
         ⟨"e2", 3400, "iot_sensors", "sensor_reading"⟩,
         ⟨"e3", 4800, "iot_sensors", "sensor_reading"⟩] 0
        (some ⟨[], [], false, some ⟨1000, 5000, 1, none⟩⟩)).1.length ≤ 0 + 1 :=
  (c8_replay_cancellation (fun _ => true)
    (fun j s => if j = 0 then handleStopReplay s else s) 0
    (fun s => by cases s <;> rfl)).1 _ _

/-- C9 counterexample: a replay that delivers its full (one-element) event
list leaves the session entry exactly as it was — `replayConfig` is still
set after completion, not cleared. -/
theorem c9_completion_counterexample :
    (startReplay (fun _ => true) (fun _ s => s)
        [⟨"e1", 1200, "iot_sensors", "sensor_reading"⟩]
        ⟨1000, 5000, 1, none⟩
        (some ⟨[], [], false, some ⟨1000, 5000, 1, none⟩⟩)).1 =
      [⟨"e1", 1200, "iot_sensors", "sensor_reading"⟩] ∧
    (startReplay (fun _ => true) (fun _ s => s)
        [⟨"e1", 1200, "iot_sensors", "sensor_reading"⟩]
        ⟨1000, 5000, 1, none⟩
        (some ⟨[], [], false, some ⟨1000, 5000, 1, none⟩⟩)).2 =
      some ⟨[], [], false, some ⟨1000, 5000, 1, none⟩⟩ ∧
    some (⟨1000, 5000, 1, none⟩ : ReplayConfig) ≠ (none : Option ReplayConfig) := by
  exact ⟨rfl, rfl, by simp⟩

/-- C9 amended: the pacing loop never writes the session entry when sends
succeed and nothing runs concurrently — in particular a replay that runs
to completion does NOT clear the session's replay configuration; clearing
happens only through `stop_replay`, disconnect, or the session deletion
performed on a failed send. -/
theorem c9_amended_completion_preserves_config :
    (∀ (evs : List Event) (i : ℕ) (st : Option ConnectionInfo),
      (replayLoop (fun _ => true) (fun _ s => s) evs i st).2 = st) ∧
    (∀ (store : List Event) (config : ReplayConfig) (st : Option ConnectionInfo),
      (startReplay (fun _ => true) (fun _ s => s) store config st).2 = st) := by
  have h : ∀ (evs : List Event) (i : ℕ) (st : Option ConnectionInfo),
      (replayLoop (fun _ => true) (fun _ s => s) evs i st).2 = st := by
    intro evs
    induction evs with
    | nil => intro i st; rfl
    | cons e rest ih =>
      intro i st
      by_cases hchk : replayCheck st = true
      · simp [replayLoop, hchk, ih]
      · rw [replayLoop_check_false _ _ _ _ _ (Bool.not_eq_true _ ▸ hchk)]
  exact ⟨h, fun store config st => h _ 0 st⟩

/-- C10 counterexample: an `unsubscribe` message with an absent filter
does not clear the topic subscription set — the session keeps its
subscription. -/
theorem c10_unsubscribe_counterexample :
    (handleUnsubscribe ⟨["iot_sensors"], [], false, none⟩ none).subscriptions ≠ [] := by
  decide

/-- C10 amended: `unsubscribe_devices` with omitted `deviceIds` does clear
all device subscriptions, but `unsubscribe` with an absent or empty
sources/types filter removes nothing — the topic subscription set is left
unchanged, not cleared. -/
theorem c10_amended_unsubscribe_clearing (conn : ConnectionInfo) :
    (handleUnsubscribe conn none).subscriptions = conn.subscriptions ∧
    (handleUnsubscribe conn (some ⟨some [], some []⟩)).subscriptions = conn.subscriptions ∧
    (handleUnsubscribeDevices conn none).deviceSubscriptions = [] := by
  refine ⟨?_, ?_, rfl⟩ <;> simp [handleUnsubscribe]

end IoTPlatform
